import Mathlib

/-!
Verification of `Quad9Domains.py`: a script that fetches malicious domains
for a time window from two sources (remote operational Mongo stores reached
over SSH tunnels, and a local CTI database), merges them into a set, and
writes them to a dated output file.

Shallow embedding: timestamps are `Int`; a Python `set` is a
duplicate-free `List String` (see `pySet`), meaningful up to membership;
exceptions are `Except RunError`; side effects relevant to the claims
(tunnel start/stop, CTI connect/fetch, config read, date parsing) are
recorded in an event trace.  External systems (SSH, Mongo, the CTI ORM,
file reads) are an `Env` of oracles describing their observable behaviour.
-/

/-- One remote Q server endpoint, mirroring class `QServer`. -/
structure QServer where
  public_addr : String
  private_addr : String
  username : String
  password : String
  db_name : String
deriving DecidableEq, Repr

/-- Parsed contents of the Q configuration JSON file:
`{user, password, db_name, servers : [{public, private}]}`.
`servers` is the list of (public, private) address pairs. -/
structure QConfig where
  user : String
  password : String
  db_name : String
  servers : List (String × String)
deriving DecidableEq, Repr

/-- A document of the Mongo `task` collection, restricted to the fields the
query touches: `task_kwargs.domain_name` (optional: `none` models a document
where the field does not exist), `result.verdict`, and `time_start`. -/
structure TaskDoc where
  domain_name : Option String
  verdict : String
  time_start : Int
deriving DecidableEq, Repr

/-- A row of the CTI `Dns` table: the `dns_record` domain string and the
`first_seen` timestamp. -/
structure DnsRec where
  dns_record : String
  first_seen : Int
deriving DecidableEq, Repr

/-- Observable side effects of a run. -/
inductive Event where
  | tunnelStart (q : QServer)
  | tunnelStop (q : QServer)
  | configRead
  | ctiConnect
  | ctiFetch
  | parseAttempt (fmt : String) (s : String)
deriving DecidableEq, Repr

/-- Exceptions a run can terminate with. -/
inductive RunError where
  | config
  | query
  | dateParse
  | ctiConnect
deriving DecidableEq, Repr

/-- Oracles for the external world: whether `SSHTunnelForwarder.start`
succeeds per endpoint, whether the Mongo connection/cursor raises per
endpoint, the contents of each endpoint's collections, the CTI `Dns` table,
the readable config files, `datetime.strptime` outcomes, and whether
`connect_to_cti_db` succeeds. -/
structure Env where
  tunnelOk : QServer → Bool
  queryRaises : QServer → Bool
  coll : QServer → String → List TaskDoc
  ctiDb : List DnsRec
  readConfig : String → Option QConfig
  strptime : String → String → Option Int
  ctiConnectOk : Bool

/-- `TASK_COLLECTION = 'task'`. -/
def TASK_COLLECTION : String := "task"

/-- The `strptime` format used for `st` and `et`. -/
def DATE_FORMAT : String := "%d/%m/%Y"

/-- A Python `set` of strings is modelled as a duplicate-free list (the
iteration order is arbitrary; only membership is meaningful). `set(l)` is
`l.dedup`; `s.update(l)` is `(s ++ l).dedup`. -/
def pySet (l : List String) : List String :=
  l.dedup

/-- Python `set.update`: union of a set with the elements of an iterable. -/
def pyUpdate (s : List String) (l : List String) : List String :=
  (s ++ l).dedup

/-- `get_q_servers_from_config`: read and parse the config file (a failure
to open or parse is `none`, an exception) and build one `QServer` per entry
of `servers`, all sharing the credentials and database name. -/
def get_q_servers_from_config (env : Env) (config_file : String) :
    Option (List QServer) :=
  (env.readConfig config_file).map (fun config =>
    config.servers.map (fun e =>
      QServer.mk e.1 e.2 config.user config.password config.db_name))

/-- `fetch_domains_per_period_from_q`: start an SSH tunnel to `q` (a
`BaseSSHTunnelForwarderError` is caught and yields the empty set); then
query the `task` collection for documents whose `task_kwargs.domain_name`
exists, whose `result.verdict` is `'malicious'` and whose `time_start` is
strictly between the bounds, collecting the distinct domain names; stop the
tunnel and return.  An exception from the Mongo connection or cursor is not
caught: it propagates and, in the source, skips `server.stop()`. -/
def fetch_domains_per_period_from_q (env : Env) (q : QServer)
    (start_time end_time : Int) : Except RunError (List String) × List Event :=
  if env.tunnelOk q then
    if env.queryRaises q then
      (Except.error RunError.query, [Event.tunnelStart q])
    else
      let task_collection := env.coll q TASK_COLLECTION
      let matched := task_collection.filter (fun x =>
        x.domain_name.isSome && (x.verdict == "malicious")
          && decide (start_time < x.time_start)
          && decide (x.time_start < end_time))
      let domains := pySet (matched.filterMap (fun x => x.domain_name))
      (Except.ok domains, [Event.tunnelStart q, Event.tunnelStop q])
  else
    (Except.ok (pySet []), [])

/-- `get_cti_domains_per_period`: the distinct `dns_record` values of `Dns`
rows with `first_seen < end_time` and `first_seen >= start_time`. -/
def get_cti_domains_per_period (db : List DnsRec) (start_time end_time : Int) :
    List String :=
  ((db.filter (fun r =>
      decide (r.first_seen < end_time) && decide (start_time ≤ r.first_seen))).map
    (fun r => r.dns_record)).dedup

/-- `fetch_all_malicious_domains_per_period`: read the Q server config
(unconditionally; failure aborts), then — the per-endpoint loop over
`q_servers` being commented out in the source — update the empty set with
the CTI domains only, and return it. -/
def fetch_all_malicious_domains_per_period (env : Env)
    (start_time end_time : Int) (config_file : String) :
    Except RunError (List String) × List Event :=
  match get_q_servers_from_config env config_file with
  | none => (Except.error RunError.config, [Event.configRead])
  | some _q_servers =>
      let domains := pySet []
      let new_domains := get_cti_domains_per_period env.ctiDb start_time end_time
      (Except.ok (pyUpdate domains new_domains), [Event.configRead, Event.ctiFetch])

/-- Python `str.replace(c, '')` with a one-character needle: remove every
occurrence of `t` from the character list. -/
def removeChar : List Char → Char → List Char
  | [], _ => []
  | c :: rest, t => if c = t then removeChar rest t else c :: removeChar rest t

/-- `'quad9_domains_{}_{}.txt'.format(st, et).replace('/', '')`. -/
def output_file_name (st et : String) : String :=
  String.mk (removeChar ("quad9_domains_" ++ st ++ "_" ++ et ++ ".txt").data (Char.ofNat 47))

/-- Written from the spec's words, for comparison with `output_file_name`:
the filename with every slash character removed. -/
def specNoSlash (s : String) : String :=
  String.mk (s.data.filter (fun c => c ≠ Char.ofNat 47))

/-- `'\n'.join(all_domains)`: the file body, one domain per line in the
set's iteration order. -/
def file_content (domains : List String) : String :=
  String.intercalate "\n" domains

/-- Command-line arguments after `argparse`. -/
structure Args where
  st : String
  et : String
  q_config : String
  cti_config : String

/-- The `__main__` block: parse `st` and `et` with `strptime` and format
`DATE_FORMAT` (a parse failure raises before anything else), connect to the
CTI database, fetch all domains, and produce the output file name and body. -/
def main_run (env : Env) (args : Args) :
    Except RunError (String × String) × List Event :=
  match env.strptime DATE_FORMAT args.st with
  | none => (Except.error RunError.dateParse,
      [Event.parseAttempt DATE_FORMAT args.st])
  | some st =>
    match env.strptime DATE_FORMAT args.et with
    | none => (Except.error RunError.dateParse,
        [Event.parseAttempt DATE_FORMAT args.st, Event.parseAttempt DATE_FORMAT args.et])
    | some et =>
      if env.ctiConnectOk then
        match fetch_all_malicious_domains_per_period env st et args.q_config with
        | (Except.error er, evs) =>
            (Except.error er, Event.parseAttempt DATE_FORMAT args.st
              :: Event.parseAttempt DATE_FORMAT args.et :: Event.ctiConnect :: evs)
        | (Except.ok all_domains, evs) =>
            (Except.ok (output_file_name args.st args.et, file_content all_domains),
             Event.parseAttempt DATE_FORMAT args.st
              :: Event.parseAttempt DATE_FORMAT args.et :: Event.ctiConnect :: evs)
      else
        (Except.error RunError.ctiConnect,
         [Event.parseAttempt DATE_FORMAT args.st,
          Event.parseAttempt DATE_FORMAT args.et, Event.ctiConnect])

/-! ## Concrete fixtures used by counterexamples and witnesses -/

/-- The endpoint described by `cfg0`. -/
def q0 : QServer := ⟨"q.example.org", "10.0.0.5", "quaduser", "pw", "quad9"⟩

/-- A config file with one server entry. -/
def cfg0 : QConfig := ⟨"quaduser", "pw", "quad9", [("q.example.org", "10.0.0.5")]⟩

/-- A config file with zero server entries. -/
def cfgEmpty : QConfig := ⟨"quaduser", "pw", "quad9", []⟩

/-- World where the CTI store yields a.test, b.test for the window 0..10 and
the (reachable) endpoint's task collection yields b.test, c.test. -/
def env1 : Env where
  tunnelOk := fun _ => true
  queryRaises := fun _ => false
  coll := fun _ _ => [⟨some "b.test", "malicious", 3⟩, ⟨some "c.test", "malicious", 4⟩]
  ctiDb := [⟨"a.test", 1⟩, ⟨"b.test", 2⟩]
  readConfig := fun _ => some cfg0
  strptime := fun _ _ => some 0
  ctiConnectOk := true

/-- World where the tunnel starts but the Mongo connection/cursor raises. -/
def env2 : Env where
  tunnelOk := fun _ => true
  queryRaises := fun _ => true
  coll := fun _ _ => []
  ctiDb := []
  readConfig := fun _ => some cfg0
  strptime := fun _ _ => some 0
  ctiConnectOk := true

/-- World with an empty CTI store and a reachable endpoint yielding c.test. -/
def env3 : Env where
  tunnelOk := fun _ => true
  queryRaises := fun _ => false
  coll := fun _ _ => [⟨some "c.test", "malicious", 5⟩]
  ctiDb := []
  readConfig := fun _ => some cfg0
  strptime := fun _ _ => some 0
  ctiConnectOk := true

/-- World whose endpoint tunnels cannot be established. -/
def env4 : Env where
  tunnelOk := fun _ => false
  queryRaises := fun _ => false
  coll := fun _ _ => [⟨some "c.test", "malicious", 5⟩]
  ctiDb := [⟨"a.test", 1⟩]
  readConfig := fun _ => some cfg0
  strptime := fun _ _ => some 0
  ctiConnectOk := true

/-- World with zero configured endpoints. -/
def env7 : Env where
  tunnelOk := fun _ => true
  queryRaises := fun _ => false
  coll := fun _ _ => []
  ctiDb := [⟨"a.test", 1⟩]
  readConfig := fun _ => some cfgEmpty
  strptime := fun _ _ => some 0
  ctiConnectOk := true

/-- World where every date string fails to parse. -/
def env9 : Env where
  tunnelOk := fun _ => true
  queryRaises := fun _ => false
  coll := fun _ _ => []
  ctiDb := [⟨"a.test", 1⟩]
  readConfig := fun _ => some cfg0
  strptime := fun _ _ => none
  ctiConnectOk := true

/-- World whose Q config file is missing or malformed. -/
def envBad : Env where
  tunnelOk := fun _ => true
  queryRaises := fun _ => false
  coll := fun _ _ => []
  ctiDb := [⟨"a.test", 1⟩]
  readConfig := fun _ => none
  strptime := fun _ _ => some 0
  ctiConnectOk := true

/-- The CLI arguments of the worked example. -/
def args0 : Args := ⟨"01/01/2023", "08/01/2023", "Q_config.json", "config.json"⟩

/-! ## Helper lemmas -/

lemma removeChar_eq_filter (l : List Char) (t : Char) :
    removeChar l t = l.filter (fun c => c ≠ t) := by
  induction l with
  | nil => rfl
  | cons c rest ih =>
      by_cases h : c = t <;> simp [removeChar, h, ih, List.filter_cons]

lemma fetch_all_ok {env : Env} {s e : Int} {cf : String} {ds : List String}
    (h : (fetch_all_malicious_domains_per_period env s e cf).1 = Except.ok ds) :
    ds = pySet (get_cti_domains_per_period env.ctiDb s e) := by
  unfold fetch_all_malicious_domains_per_period at h
  cases hc : get_q_servers_from_config env cf <;> simp [hc] at h
  simp [← h, pyUpdate, pySet]

/-! ## Claim C1 -/

/-- Claim C1, counterexample.  With a threat-intel source yielding
a.test, b.test on window 0..10 and one operational endpoint whose tunnel
is established yielding b.test, c.test, the aggregate is exactly
the set with a.test and b.test — c.test is missing, because the
per-endpoint loop of `fetch_all_malicious_domains_per_period` is commented
out, so the result is not the three-element union the claim states. -/
theorem C1_counterexample :
    env1.tunnelOk q0 = true
    ∧ get_q_servers_from_config env1 "Q_config.json" = some [q0]
    ∧ (fetch_domains_per_period_from_q env1 q0 0 10).1 = Except.ok ["b.test", "c.test"]
    ∧ (fetch_all_malicious_domains_per_period env1 0 10 "Q_config.json").1
        = Except.ok ["a.test", "b.test"]
    ∧ "c.test" ∉ ["a.test", "b.test"] := by
  refine ⟨rfl, by decide, rfl, rfl, by decide⟩

/-- Claim C1, amended.  Whenever the configuration file is readable, the
aggregate equals exactly the threat-intel (CTI) result for the window; the
configured endpoints contribute nothing regardless of their tunnels,
because the per-endpoint fetch loop is disabled in the source. -/
theorem C1_amended_cti_only (env : Env) (s e : Int) (cf : String) (cfg : QConfig)
    (h : env.readConfig cf = some cfg) :
    (fetch_all_malicious_domains_per_period env s e cf).1
      = Except.ok (pySet (get_cti_domains_per_period env.ctiDb s e)) := by
  simp [fetch_all_malicious_domains_per_period, get_q_servers_from_config, h,
    pyUpdate, pySet]

/-- Claim C1, witness for the amended theorem at a concrete input. -/
theorem C1_amended_witness :
    (fetch_all_malicious_domains_per_period env1 0 10 "Q_config.json").1
      = Except.ok (pySet (get_cti_domains_per_period env1.ctiDb 0 10)) :=
  C1_amended_cti_only env1 0 10 "Q_config.json" cfg0 rfl

/-! ## Claim C2 -/

/-- Claim C2, counterexample.  With the tunnel to `q0` established and the
subsequent database connection/query raising, the trace of
`fetch_domains_per_period_from_q` contains the tunnel start but no tunnel
stop: the exception propagates past `server.stop()`, so the tunnel is not
stopped on this exit path. -/
theorem C2_counterexample :
    (fetch_domains_per_period_from_q env2 q0 0 10).2 = [Event.tunnelStart q0]
    ∧ Event.tunnelStop q0 ∉ (fetch_domains_per_period_from_q env2 q0 0 10).2
    ∧ (fetch_domains_per_period_from_q env2 q0 0 10).1 = Except.error RunError.query := by
  refine ⟨rfl, by decide, rfl⟩

/-- Claim C2, amended.  The tunnel is stopped before returning only on the
successful-fetch exit path: when the tunnel starts and the query does not
raise, the trace is start-then-stop; when the tunnel starts and the
database connection or query raises, the exception propagates with the
tunnel started but never stopped. -/
theorem C2_amended_stop_on_success_only (env : Env) (q : QServer) (s e : Int) :
    (env.tunnelOk q = true → env.queryRaises q = false →
      (fetch_domains_per_period_from_q env q s e).2
        = [Event.tunnelStart q, Event.tunnelStop q])
    ∧ (env.tunnelOk q = true → env.queryRaises q = true →
      Event.tunnelStart q ∈ (fetch_domains_per_period_from_q env q s e).2
        ∧ Event.tunnelStop q ∉ (fetch_domains_per_period_from_q env q s e).2) := by
  constructor
  · intro h1 h2
    simp [fetch_domains_per_period_from_q, h1, h2]
  · intro h1 h2
    simp [fetch_domains_per_period_from_q, h1, h2]

/-- Claim C2, witness for the amended theorem at a concrete input. -/
theorem C2_amended_witness :
    ((fetch_domains_per_period_from_q env1 q0 0 10).2
        = [Event.tunnelStart q0, Event.tunnelStop q0])
    ∧ (Event.tunnelStart q0 ∈ (fetch_domains_per_period_from_q env2 q0 0 10).2
        ∧ Event.tunnelStop q0 ∉ (fetch_domains_per_period_from_q env2 q0 0 10).2) :=
  ⟨(C2_amended_stop_on_success_only env1 q0 0 10).1 rfl rfl,
   (C2_amended_stop_on_success_only env2 q0 0 10).2 rfl rfl⟩

/-! ## Claim C3 -/

/-- Claim C3, counterexample.  With an empty CTI store and one endpoint
whose tunnel succeeds and whose store yields c.test, the claim's "final
set equals threat-intel union successful endpoints" would contain c.test,
but the aggregate is empty: the per-endpoint loop is disabled, so even
successful endpoints contribute nothing. -/
theorem C3_counterexample :
    env3.tunnelOk q0 = true
    ∧ (fetch_domains_per_period_from_q env3 q0 0 10).1 = Except.ok ["c.test"]
    ∧ (fetch_all_malicious_domains_per_period env3 0 10 "Q_config.json").1
        = Except.ok []
    ∧ "c.test" ∉ ([] : List String) := by
  refine ⟨rfl, rfl, rfl, by decide⟩

/-- Claim C3, amended.  When an endpoint's tunnel establishment fails,
`fetch_domains_per_period_from_q` does not raise: it returns the empty set
(and never starts a tunnel), and the overall aggregation completes with the
final set equal to the threat-intel result alone — successful endpoints'
results are likewise not included, the per-endpoint loop being disabled. -/
theorem C3_amended_tunnel_failure_empty (env : Env) (q : QServer) (s e : Int)
    (cf : String) (cfg : QConfig)
    (ht : env.tunnelOk q = false) (hc : env.readConfig cf = some cfg) :
    (fetch_domains_per_period_from_q env q s e).1 = Except.ok []
    ∧ (fetch_domains_per_period_from_q env q s e).2 = []
    ∧ (fetch_all_malicious_domains_per_period env s e cf).1
        = Except.ok (pySet (get_cti_domains_per_period env.ctiDb s e)) := by
  refine ⟨?_, ?_, ?_⟩
  · simp [fetch_domains_per_period_from_q, ht, pySet]
  · simp [fetch_domains_per_period_from_q, ht]
  · simp [fetch_all_malicious_domains_per_period, get_q_servers_from_config, hc,
      pyUpdate, pySet]

/-- Claim C3, witness for the amended theorem at a concrete input. -/
theorem C3_amended_witness :
    (fetch_domains_per_period_from_q env4 q0 0 10).1 = Except.ok []
    ∧ (fetch_domains_per_period_from_q env4 q0 0 10).2 = []
    ∧ (fetch_all_malicious_domains_per_period env4 0 10 "Q_config.json").1
        = Except.ok (pySet (get_cti_domains_per_period env4.ctiDb 0 10)) :=
  C3_amended_tunnel_failure_empty env4 q0 0 10 "Q_config.json" cfg0 rfl rfl

/-! ## Claim C4 -/

/-- Claim C4.  When the tunnel is established and the query does not raise,
`fetch_domains_per_period_from_q` returns exactly the distinct domain names
of the documents of the `task` collection where the domain-name field
exists, the verdict equals malicious, and the start/end bounds are both
strictly satisfied (start < time_start < end). -/
theorem C4_q_query_filter (env : Env) (q : QServer) (s e : Int) (d : String)
    (ht : env.tunnelOk q = true) (hq : env.queryRaises q = false) :
    ∃ ds, (fetch_domains_per_period_from_q env q s e).1 = Except.ok ds
      ∧ (d ∈ ds ↔ ∃ x ∈ env.coll q TASK_COLLECTION,
          x.domain_name = some d ∧ x.verdict = "malicious"
            ∧ s < x.time_start ∧ x.time_start < e) := by
  refine ⟨pySet (((env.coll q TASK_COLLECTION).filter (fun x =>
      x.domain_name.isSome && (x.verdict == "malicious")
        && decide (s < x.time_start) && decide (x.time_start < e))).filterMap
      (fun x => x.domain_name)), ?_, ?_⟩
  · simp [fetch_domains_per_period_from_q, ht, hq]
  simp only [pySet, List.mem_dedup, List.mem_filterMap, List.mem_filter]
  constructor
  · rintro ⟨x, ⟨hx, hp⟩, hd⟩
    simp only [Bool.and_eq_true, beq_iff_eq, decide_eq_true_eq] at hp
    obtain ⟨⟨⟨-, hv⟩, h1⟩, h2⟩ := hp
    exact ⟨x, hx, hd, hv, h1, h2⟩
  · rintro ⟨x, hx, hd, hv, h1, h2⟩
    exact ⟨x, ⟨hx, by simp [hd, hv, h1, h2]⟩, hd⟩

/-- Claim C4, witness at a concrete input. -/
theorem C4_witness :
    ∃ ds, (fetch_domains_per_period_from_q env1 q0 0 10).1 = Except.ok ds
      ∧ ("b.test" ∈ ds ↔ ∃ x ∈ env1.coll q0 TASK_COLLECTION,
          x.domain_name = some "b.test" ∧ x.verdict = "malicious"
            ∧ (0:Int) < x.time_start ∧ x.time_start < 10) :=
  C4_q_query_filter env1 q0 0 10 "b.test" rfl rfl

/-! ## Claim C5 -/

/-- Claim C5.  The threat-intel query returns exactly the distinct
`dns_record` values whose `first_seen` lies in the half-open window
`[start, end)`: included exactly when `start ≤ first_seen < end`, so a
record at exactly `start` qualifies and a record at exactly `end` does
not. -/
theorem C5_cti_halfopen_window (db : List DnsRec) (s e : Int) (d : String) :
    d ∈ get_cti_domains_per_period db s e
      ↔ ∃ r ∈ db, r.dns_record = d ∧ s ≤ r.first_seen ∧ r.first_seen < e := by
  simp only [get_cti_domains_per_period, List.mem_dedup, List.mem_map,
    List.mem_filter, Bool.and_eq_true, decide_eq_true_eq]
  constructor
  · rintro ⟨r, ⟨hr, h1, h2⟩, hd⟩
    exact ⟨r, hr, hd, h2, h1⟩
  · rintro ⟨r, hr, hd, h1, h2⟩
    exact ⟨r, ⟨hr, h2, h1⟩, hd⟩

/-! ## Claim C6 -/

lemma union_union_self (A B : List String) : (A ∪ B) ∪ B = A ∪ B := by
  induction A with
  | nil =>
      simp only [List.nil_union]
      exact List.Subset.union_eq_right fun x hx => hx
  | cons a A ih =>
      simp only [List.cons_union]
      by_cases h : a ∈ A ∪ B
      · rw [List.insert_of_mem h, ih]
      · rw [List.insert_of_not_mem h, List.cons_union, ih, List.insert_of_not_mem h]

lemma pyUpdate_idem (t l : List String) : pyUpdate (pyUpdate t l) l = pyUpdate t l := by
  simp only [pyUpdate, List.dedup_append]
  exact union_union_self t l.dedup

/-- Claim C6.  Any aggregate the run produces contains each domain string
at most once; every domain in it is verbatim a `dns_record` string of the
source store (no case or whitespace normalization); and the merge operation
`set.update` is an idempotent set union: updating with the same iterable a
second time changes nothing. -/
theorem C6_dedup_invariant (env : Env) (s e : Int) (cf : String) (ds : List String)
    (h : (fetch_all_malicious_domains_per_period env s e cf).1 = Except.ok ds) :
    ds.Nodup
    ∧ (∀ d ∈ ds, ∃ r ∈ env.ctiDb, r.dns_record = d)
    ∧ (∀ t l : List String, pyUpdate (pyUpdate t l) l = pyUpdate t l) := by
  have hd := fetch_all_ok h
  refine ⟨?_, ?_, fun t l => pyUpdate_idem t l⟩
  · rw [hd]
    exact List.nodup_dedup _
  · intro d hdm
    rw [hd] at hdm
    simp only [pySet, get_cti_domains_per_period, List.mem_dedup, List.mem_map,
      List.mem_filter] at hdm
    obtain ⟨r, ⟨hr, -⟩, rfl⟩ := hdm
    exact ⟨r, hr, rfl⟩

/-- Claim C6, witness at a concrete input. -/
theorem C6_witness :
    (["a.test", "b.test"] : List String).Nodup
    ∧ (∀ d ∈ (["a.test", "b.test"] : List String),
        ∃ r ∈ env1.ctiDb, r.dns_record = d)
    ∧ (∀ t l : List String, pyUpdate (pyUpdate t l) l = pyUpdate t l) :=
  C6_dedup_invariant env1 0 10 "Q_config.json" ["a.test", "b.test"] rfl

/-! ## Claim C7 -/

/-- Claim C7.  Whenever the configuration is readable, the aggregation
performs the threat-intel fetch (its event is in every such trace —
the path is not conditionally skippable), and when the configuration
yields zero endpoints the aggregate equals the threat-intel result
exactly. -/
theorem C7_cti_always_zero_endpoints (env : Env) (s e : Int) (cf : String)
    (cfg : QConfig) (h : env.readConfig cf = some cfg) :
    Event.ctiFetch ∈ (fetch_all_malicious_domains_per_period env s e cf).2
    ∧ (get_q_servers_from_config env cf = some [] →
        (fetch_all_malicious_domains_per_period env s e cf).1
          = Except.ok (pySet (get_cti_domains_per_period env.ctiDb s e))) := by
  constructor
  · simp [fetch_all_malicious_domains_per_period, get_q_servers_from_config, h]
  · intro _
    simp [fetch_all_malicious_domains_per_period, get_q_servers_from_config, h,
      pyUpdate, pySet]

/-- Claim C7, witness at a concrete input with zero endpoints. -/
theorem C7_witness :
    Event.ctiFetch ∈ (fetch_all_malicious_domains_per_period env7 0 10 "Q_config.json").2
    ∧ (fetch_all_malicious_domains_per_period env7 0 10 "Q_config.json").1
        = Except.ok (pySet (get_cti_domains_per_period env7.ctiDb 0 10)) := by
  have h := C7_cti_always_zero_endpoints env7 0 10 "Q_config.json" cfgEmpty rfl
  exact ⟨h.1, h.2 rfl⟩

/-! ## Claim C8 -/

lemma output_file_name_eq_spec (st et : String) :
    output_file_name st et
      = specNoSlash ("quad9_domains_" ++ st ++ "_" ++ et ++ ".txt") := by
  simp [output_file_name, specNoSlash, removeChar_eq_filter]

lemma main_run_ok {env : Env} {args : Args} {r : String × String}
    (h : (main_run env args).1 = Except.ok r) :
    ∃ s e ds, env.strptime DATE_FORMAT args.st = some s
      ∧ env.strptime DATE_FORMAT args.et = some e
      ∧ (fetch_all_malicious_domains_per_period env s e args.q_config).1
          = Except.ok ds
      ∧ r = (output_file_name args.st args.et, file_content ds) := by
  unfold main_run at h
  split at h
  · simp at h
  next s hst =>
    split at h
    · simp at h
    next e het =>
      split at h
      · split at h
        next heq => simp at h
        next ds evs heq =>
          simp only at h
          exact ⟨s, e, ds, hst, het, by rw [heq],
            by cases Except.ok.inj h; rfl⟩
      · simp at h

/-- Claim C8.  The output filename is the literal
`quad9_domains_{st}_{et}.txt` with every slash removed; with
st = 01/01/2023 and et = 08/01/2023 it is exactly
`quad9_domains_01012023_08012023.txt`; and any successful run produces that
filename together with a body that is the merged, duplicate-free domain
list joined by newlines. -/
theorem C8_output_artifact (env : Env) (args : Args) (st et : String) :
    output_file_name st et
        = specNoSlash ("quad9_domains_" ++ st ++ "_" ++ et ++ ".txt")
    ∧ output_file_name "01/01/2023" "08/01/2023"
        = "quad9_domains_01012023_08012023.txt"
    ∧ (∀ r, (main_run env args).1 = Except.ok r →
        ∃ ds, ds.Nodup
          ∧ r = (output_file_name args.st args.et, file_content ds)) := by
  refine ⟨output_file_name_eq_spec st et, rfl, ?_⟩
  intro r h
  obtain ⟨s, e, ds, -, -, hf, hr⟩ := main_run_ok h
  refine ⟨ds, ?_, hr⟩
  rw [fetch_all_ok hf]
  exact List.nodup_dedup _

/-- Claim C8, witness at a concrete successful run. -/
theorem C8_witness :
    ∃ ds, ds.Nodup
      ∧ ("quad9_domains_01012023_08012023.txt", file_content ([] : List String))
          = (output_file_name args0.st args0.et, file_content ds) :=
  (C8_output_artifact env1 args0 "a" "b").2.2
    ("quad9_domains_01012023_08012023.txt", file_content []) rfl

/-! ## Claim C9 -/

lemma fetch_all_no_parse (env : Env) (a b : Int) (cf : String) (fmt s : String) :
    Event.parseAttempt fmt s
      ∉ (fetch_all_malicious_domains_per_period env a b cf).2 := by
  unfold fetch_all_malicious_domains_per_period
  cases get_q_servers_from_config env cf <;> simp

lemma fetch_all_no_tunnel (env : Env) (a b : Int) (cf : String) (q : QServer) :
    Event.tunnelStart q
      ∉ (fetch_all_malicious_domains_per_period env a b cf).2 := by
  unfold fetch_all_malicious_domains_per_period
  cases get_q_servers_from_config env cf <;> simp

/-- Claim C9.  Date arguments are only ever parsed with the exact format
`%d/%m/%Y` (DD/MM/YYYY), and when either `st` or `et` fails to parse the
run terminates with a date-parse error before any network activity: the
trace holds no CTI connection, no tunnel start, no CTI fetch, and no config
read. -/
theorem C9_date_parse_before_network (env : Env) (args : Args) :
    DATE_FORMAT = "%d/%m/%Y"
    ∧ (∀ fmt s, Event.parseAttempt fmt s ∈ (main_run env args).2 →
        fmt = DATE_FORMAT)
    ∧ ((env.strptime DATE_FORMAT args.st = none
          ∨ env.strptime DATE_FORMAT args.et = none) →
        (main_run env args).1 = Except.error RunError.dateParse
        ∧ Event.ctiConnect ∉ (main_run env args).2
        ∧ (∀ q, Event.tunnelStart q ∉ (main_run env args).2)
        ∧ Event.ctiFetch ∉ (main_run env args).2
        ∧ Event.configRead ∉ (main_run env args).2) := by
  refine ⟨rfl, ?_, ?_⟩
  · intro fmt s hmem
    rcases hst : env.strptime DATE_FORMAT args.st with _ | s0
    · simp [main_run, hst] at hmem
      exact hmem.1
    rcases het : env.strptime DATE_FORMAT args.et with _ | e0
    · simp [main_run, hst, het] at hmem
      rcases hmem with ⟨h1, -⟩ | ⟨h1, -⟩ <;> exact h1
    rcases hcti : env.ctiConnectOk with _ | _
    · simp [main_run, hst, het, hcti] at hmem
      rcases hmem with ⟨h1, -⟩ | ⟨h1, -⟩ <;> exact h1
    · rcases hf : fetch_all_malicious_domains_per_period env s0 e0 args.q_config
        with ⟨res, evs⟩
      have hevs : evs
          = (fetch_all_malicious_domains_per_period env s0 e0 args.q_config).2 := by
        rw [hf]
      rcases res with er | ds <;>
      · simp [main_run, hst, het, hcti, hf] at hmem
        rcases hmem with ⟨h1, -⟩ | ⟨h1, -⟩ | hin
        · exact h1
        · exact h1
        · rw [hevs] at hin
          exact absurd hin (fetch_all_no_parse env s0 e0 args.q_config fmt s)
  · intro h
    rcases hst : env.strptime DATE_FORMAT args.st with _ | s0
    · simp [main_run, hst]
    rcases het : env.strptime DATE_FORMAT args.et with _ | e0
    · simp [main_run, hst, het]
    rcases h with h | h
    · rw [hst] at h
      exact absurd h (by simp)
    · rw [het] at h
      exact absurd h (by simp)

/-- Claim C9, witness at a concrete failing parse. -/
theorem C9_witness :
    (main_run env9 args0).1 = Except.error RunError.dateParse
    ∧ Event.ctiConnect ∉ (main_run env9 args0).2
    ∧ (∀ q, Event.tunnelStart q ∉ (main_run env9 args0).2)
    ∧ Event.ctiFetch ∉ (main_run env9 args0).2
    ∧ Event.configRead ∉ (main_run env9 args0).2 :=
  (C9_date_parse_before_network env9 args0).2.2 (Or.inl rfl)

/-! ## Claim C10 -/

/-- Claim C10.  The endpoint configuration file is read before the
aggregate is produced, on every path: its event is in every trace; a
missing or malformed configuration aborts the aggregation with an error;
and yet no tunnel is ever started (the per-endpoint loop is disabled), so
no fetch would ever use the endpoints parsed from it. -/
theorem C10_config_read_unconditionally (env : Env) (s e : Int) (cf : String) :
    Event.configRead ∈ (fetch_all_malicious_domains_per_period env s e cf).2
    ∧ (env.readConfig cf = none →
        (fetch_all_malicious_domains_per_period env s e cf).1
          = Except.error RunError.config)
    ∧ (∀ q, Event.tunnelStart q
        ∉ (fetch_all_malicious_domains_per_period env s e cf).2) := by
  refine ⟨?_, ?_, fun q => fetch_all_no_tunnel env s e cf q⟩
  · unfold fetch_all_malicious_domains_per_period
    cases get_q_servers_from_config env cf <;> simp
  · intro h
    simp [fetch_all_malicious_domains_per_period, get_q_servers_from_config, h]

/-- Claim C10, witness at a concrete missing config file. -/
theorem C10_witness :
    Event.configRead
      ∈ (fetch_all_malicious_domains_per_period envBad 0 10 "Q_config.json").2
    ∧ (fetch_all_malicious_domains_per_period envBad 0 10 "Q_config.json").1
        = Except.error RunError.config :=
  ⟨(C10_config_read_unconditionally envBad 0 10 "Q_config.json").1,
   (C10_config_read_unconditionally envBad 0 10 "Q_config.json").2.1 rfl⟩
